import Mathlib

/-!
Verification of the mutag-calib repository's correction-export and
scale-factor scripts.

The Python sources are shallowly embedded over exact rationals.  External
effects (filesystem globbing, PyROOT fit files, correctionlib evaluation,
awkward-array broadcasting) are represented by explicit parameters: a
snapshot structure stands for the directory tree, a list of named
parameters stands for the RooFit result object, and loaded correction
objects are passed as plain functions.  Python exceptions are modelled by
an error type threaded through `Except`; a `for` loop that can raise is a
left-to-right short-circuiting traversal.
-/

/-- The Python exception kinds raised by the scripts, each carrying its
message text. -/
inductive PyErr where
  | fileNotFoundError : String → PyErr
  | keyError : String → PyErr
  | runtimeError : String → PyErr
  | valueError : String → PyErr
  | typeError : String → PyErr
  | indexError : String → PyErr
  | systemExit : String → PyErr
deriving DecidableEq

/-- Is the error a FileNotFoundError? -/
def PyErr.isFileNotFound : PyErr → Bool
  | .fileNotFoundError _ => true
  | _ => false

/-- Is the error a KeyError? -/
def PyErr.isKeyError : PyErr → Bool
  | .keyError _ => true
  | _ => false

/-- Is the error a TypeError? -/
def PyErr.isTypeError : PyErr → Bool
  | .typeError _ => true
  | _ => false

/-- A Python `for` loop whose body can raise, collecting one value per
iteration: left-to-right, stopping at the first exception. -/
def mapExcept (f : α → Except PyErr β) : List α → Except PyErr (List β)
  | [] => .ok []
  | a :: as =>
    match f a with
    | .error e => .error e
    | .ok b =>
      match mapExcept f as with
      | .error e => .error e
      | .ok bs => .ok (b :: bs)

/-- A Python `for` loop folding an accumulator, whose body can raise. -/
def foldExcept (f : γ → α → Except PyErr γ) : γ → List α → Except PyErr γ
  | acc, [] => .ok acc
  | acc, a :: as =>
    match f acc a with
    | .error e => .error e
    | .ok acc2 => foldExcept f acc2 as

/-- Insert into a Python dict represented as an insertion-ordered
association list: an existing key keeps its position and gets the new
value, a new key is appended. -/
def dictInsert (m : List (String × α)) (k : String) (v : α) : List (String × α) :=
  if m.any (fun e => e.1 == k) then
    m.map (fun e => if e.1 == k then (k, v) else e)
  else m ++ [(k, v)]

/-- Python dict lookup on the association-list representation (keys are
unique by construction of `dictInsert`, so the first match is the
binding). -/
def dictGet (m : List (String × α)) (k : String) : Option α :=
  (m.find? (fun e => e.1 == k)).map Prod.snd

/-- Build a dict from a list of key-value pairs, later pairs overwriting
earlier ones, as a Python dict comprehension does. -/
def dictOfPairs (ps : List (String × α)) : List (String × α) :=
  ps.foldl (fun m e => dictInsert m e.1 e.2) []

/-- `str.lower()`, character by character. -/
def strToLower (s : String) : String :=
  String.mk (s.data.map Char.toLower)

/-- `str.endswith(suffix)`. -/
def strEndsWith (s suffix : String) : Bool :=
  suffix.data.isSuffixOf s.data

/-- `os.path.basename`: the part of the path after the last slash. -/
def pathBasename (s : String) : String :=
  String.mk (s.data.foldl (fun acc c => if c = '/' then [] else acc ++ [c]) [])

/-- `os.path.splitext` on a basename: split at the last dot, provided a
character other than a dot occurs before it; otherwise the extension is
empty. -/
def splitext (s : String) : String × String :=
  let cs := s.data
  match cs.reverse.findIdx? (fun c => c == '.') with
  | none => (s, "")
  | some rpos =>
    let d := cs.length - 1 - rpos
    if (cs.take d).any (fun c => c != '.') then
      (String.mk (cs.take d), String.mk (cs.drop d))
    else (s, "")

/-- `str.replace("tau21_", "")`: delete every non-overlapping occurrence
of the six characters `tau21_`, scanning left to right. -/
def replaceTau21 : List Char → List Char
  | 't' :: 'a' :: 'u' :: '2' :: '1' :: '_' :: rest => replaceTau21 rest
  | c :: rest => c :: replaceTau21 rest
  | [] => []

/-- The tau21 working-point label of a directory basename, as computed by
`os.path.basename(tau_dir).replace("tau21_", "")`. -/
def tauLabel (name : String) : String :=
  String.mk (replaceTau21 name.data)

/-- One entry of a correctionlib category node. -/
structure SystEntry where
  key : String
  value : ℚ
deriving DecidableEq

/-- A correctionlib category node as the scripts emit it. -/
structure CategoryNode where
  nodetype : String
  input : String
  content : List SystEntry
  default : Option ℚ
deriving DecidableEq

/-- A correctionlib binning node as the scripts emit it. -/
structure BinningNode where
  nodetype : String
  input : String
  edges : List ℚ
  content : List CategoryNode
  flow : String
deriving DecidableEq

/-- A correctionlib input (or output) variable declaration. -/
structure CorrVar where
  name : String
  type : String
  description : String
deriving DecidableEq

/-- A correctionlib correction object as the scripts emit it
(`generic_formulas` is always None and is omitted). -/
structure Correction where
  name : String
  description : String
  version : Nat
  inputs : List CorrVar
  output : CorrVar
  data : BinningNode
deriving DecidableEq

/-- A correctionlib correction-set file as the scripts emit it
(`compound_corrections` is always None and is omitted). -/
structure CorrectionSetFile where
  schema_version : Nat
  description : String
  corrections : List Correction
deriving DecidableEq

/-- One output JSON file: its name and its content. -/
structure OutputFile where
  path : String
  cset : CorrectionSetFile
deriving DecidableEq

/-- Category-node lookup by systematic label, as correctionlib resolves a
string input against the entry keys. -/
def catLookup (cat : CategoryNode) (k : String) : Option ℚ :=
  (cat.content.find? (fun e => e.key == k)).map SystEntry.value

namespace ExportScript

/-!
Embedding of `src/mutag_calib/scripts/export_correctionlib.py`.
-/

/-- The `POIResult` dataclass. -/
structure POIResult where
  name : String
  value : ℚ
  err_up : ℚ
  err_down : ℚ
deriving DecidableEq

/-- The `POIResult.up` property. -/
def POIResult.up (r : POIResult) : ℚ := r.value + r.err_up

/-- The `POIResult.down` property. -/
def POIResult.down (r : POIResult) : ℚ := r.value - r.err_down

/-- A floating parameter of the `fit_s` RooFitResult.  The accessors
`getErrorHi`, `getErrorLo` and `getError` are PyROOT calls that can fail;
a failing read is modelled as `none`. -/
structure RooParam where
  val : ℚ
  errorHi : Option ℚ
  errorLo : Option ℚ
  error : Option ℚ
deriving DecidableEq

/-- `_find_unique_dir`, applied to the sorted list of directory matches
for the glob pattern. -/
def _find_unique_dir (parent : String) (ms : List String) : Except PyErr String :=
  match ms with
  | [] => .error (.fileNotFoundError ("No directory matching pattern under: " ++ parent))
  | [d] => .ok d
  | _ => .error (.runtimeError ("Multiple directories match pattern under " ++ parent))

/-- `_find_fit_file`, applied to the sorted deduplicated list of
fitDiagnostics matches in the fit directory. -/
def _find_fit_file (fit_dir : String) (ms : List String) : Except PyErr String :=
  match ms with
  | [] => .error (.fileNotFoundError ("No fitDiagnostics ROOT file found in: " ++ fit_dir))
  | [f] => .ok f
  | _ => .error (.runtimeError "Multiple fitDiagnostics ROOT files found.")

/-- `_get_poi_result`: look the POI up in `fit_s.floatParsFinal()`; prefer
the asymmetric errors, falling back to the symmetric `getError()` when
their read fails or both are zero; the fallback read failing propagates. -/
def _get_poi_result (pars : List (String × RooParam)) (poi : String) : Except PyErr POIResult :=
  match pars.find? (fun p => p.1 == poi) with
  | none => .error (.keyError ("POI " ++ poi ++ " not found in fit_s.floatParsFinal()"))
  | some pr =>
    let par := pr.2
    match par.errorHi, par.errorLo with
    | some hi, some lo =>
      if hi = 0 ∧ |lo| = 0 then
        match par.error with
        | some e => .ok { name := poi, value := par.val, err_up := e, err_down := e }
        | none => .error (.runtimeError "getError read failed")
      else
        .ok { name := poi, value := par.val, err_up := hi, err_down := |lo| }
    | _, _ =>
      match par.error with
      | some e => .ok { name := poi, value := par.val, err_up := e, err_down := e }
      | none => .error (.runtimeError "getError read failed")

/-- `_systematic_category`. -/
def _systematic_category (res : POIResult) (tau21_unc : Option ℚ) : CategoryNode :=
  let content : List SystEntry :=
    [⟨"nominal", res.value⟩, ⟨"up", res.up⟩, ⟨"down", res.down⟩]
  let content : List SystEntry :=
    match tau21_unc with
    | some u => content ++ [⟨"tau21Up", res.value + u⟩, ⟨"tau21Down", res.value - u⟩]
    | none => content
  { nodetype := "category", input := "systematic", content := content, default := none }

/-- `_pt_binning`. -/
def _pt_binning (pt_edges : List ℚ) (res : POIResult) (tau21_unc : Option ℚ) :
    Except PyErr BinningNode :=
  match pt_edges with
  | [e0, e1] =>
    .ok { nodetype := "binning", input := "pt", edges := [e0, e1],
          content := [_systematic_category res tau21_unc], flow := "clamp" }
  | _ => .error (.valueError "This exporter expects exactly one pT bin (2 edges)")

/-- `build_correction` of the export script. -/
def build_correction (name description poi_name : String) (nominal : POIResult)
    (pt_edges : List ℚ) (tau21_unc : ℚ) : Except PyErr Correction :=
  match _pt_binning pt_edges nominal (some tau21_unc) with
  | .error e => .error e
  | .ok data =>
    .ok { name := name,
          description := description ++ " | " ++ poi_name,
          version := 1,
          inputs := [⟨"pt", "real", "AK8 jet pT (GeV)"⟩,
                     ⟨"systematic", "string", "nominal|up|down|tau21Up|tau21Down"⟩],
          output := ⟨"sf", "real", "scale factor"⟩,
          data := data }

/-- The filesystem and ROOT-file state that `main` of the export script
observes, abstracted as a snapshot: which year directories exist, the
sorted glob matches for the pT-bin pattern, the sorted basenames of the
`tau21_*` subdirectories, the sorted fitDiagnostics matches per fit
directory, and the floating parameters of `fit_s` per fit file (loading
can fail, e.g. an unopenable ROOT file). -/
structure ExportFS where
  yearIsDir : String → Bool
  ptDirMatches : String → List String
  tauDirNames : String → List String
  fitFileMatches : String → List String
  loadFitS : String → Except PyErr (List (String × RooParam))

/-- The body of the inner loop of `main` over one `tau21_*` directory:
locate the fit file, load `fit_s`, and extract every POI. -/
def processTau (fs : ExportFS) (pois : List String) (pt_dir tau_name : String) :
    Except PyErr (String × List (String × POIResult)) :=
  let tau_dir := pt_dir ++ "/" ++ tau_name
  match _find_fit_file tau_dir (fs.fitFileMatches tau_dir) with
  | .error e => .error e
  | .ok fit_file =>
    match fs.loadFitS fit_file with
    | .error e => .error e
    | .ok pars =>
      match mapExcept (fun poi =>
          match _get_poi_result pars poi with
          | .error e => .error e
          | .ok r => .ok (poi, r)) pois with
      | .error e => .error e
      | .ok rs => .ok (tauLabel tau_name, rs)

/-- The read phase of `main` for one year: check the year directory,
resolve the unique pT-bin directory, walk the `tau21_*` directories, and
verify every required tau21 working point was found. -/
def collectYear (fs : ExportFS) (datacards_dir : String)
    (pois required_tau21 : List String) (year : String) :
    Except PyErr (List (String × List (String × POIResult))) :=
  let year_dir := datacards_dir ++ "/" ++ year
  if fs.yearIsDir year_dir = false then
    .error (.fileNotFoundError ("Missing year directory: " ++ year_dir))
  else
    match _find_unique_dir year_dir (fs.ptDirMatches year_dir) with
    | .error e => .error e
    | .ok pt_dir =>
      let tau_names := fs.tauDirNames pt_dir
      if tau_names.isEmpty then
        .error (.fileNotFoundError ("No tau21 subdirectories found under: " ++ pt_dir))
      else
        match mapExcept (processTau fs pois pt_dir) tau_names with
        | .error e => .error e
        | .ok results =>
          let found := results.map Prod.fst
          let missing := required_tau21.filter (fun t => ! found.contains t)
          if missing.isEmpty then .ok results
          else .error (.fileNotFoundError ("Missing required tau21 folders under: " ++ pt_dir))

/-- Lookup of `values_by_poi[poi][year][label]` for one collected year.
Python dict assignment overwrites, so the last binding of a key wins. -/
def lookupResult (results : List (String × List (String × POIResult)))
    (label poi : String) : Option POIResult :=
  match results.reverse.find? (fun r => r.1 == label) with
  | none => none
  | some lr => (lr.2.reverse.find? (fun p => p.1 == poi)).map Prod.snd

/-- The `poi_alias` dict with its `.get(poi, poi)` default. -/
def poi_alias (poi : String) : String :=
  if poi == "r" then "SF_bb" else if poi == "SF_c" then "SF_cc" else poi

/-- The loop of `main` computing
`tau21_unc = max(tau21_unc, abs(alt.value - nominal.value))` from 0. -/
def tau21_uncertainty (nominal : POIResult) (alt_results : List POIResult) : ℚ :=
  alt_results.foldl (fun acc alt => max acc |alt.value - nominal.value|) 0

/-- One `values_by_poi[poi][year][alt]` dict access of the tau21
uncertainty loop, raising KeyError when absent. -/
def lookup_alt (results : List (String × List (String × POIResult)))
    (poi alt : String) : Except PyErr POIResult :=
  match lookupResult results alt poi with
  | none => .error (.keyError ("missing tau21 alternative result " ++ alt))
  | some r => .ok r

/-- The per-POI body of the write loop of `main`: resolve the nominal and
alternative fit results, derive the tau21 uncertainty, and build the
correction with pt edges 300 and 20000. -/
def build_year_correction (results : List (String × List (String × POIResult)))
    (tau21_nominal : String) (alts : List String) (descr year poi : String) :
    Except PyErr Correction :=
  let corr_name := "HHbbww_" ++ year ++ "_" ++ poi_alias poi
  match lookupResult results tau21_nominal poi with
  | none => .error (.keyError ("missing tau21 nominal result " ++ tau21_nominal))
  | some nominal =>
    match mapExcept (lookup_alt results poi) alts with
    | .error e => .error e
    | .ok alt_results =>
      build_correction corr_name (descr ++ " | " ++ year) poi nominal [300, 20000]
        (tau21_uncertainty nominal alt_results)

/-- The corrections of one per-era output file. -/
def buildYearCorrections (results : List (String × List (String × POIResult)))
    (pois : List String) (tau21_nominal : String) (alts : List String)
    (descr year : String) : Except PyErr (List Correction) :=
  mapExcept (build_year_correction results tau21_nominal alts descr year) pois

/-- The output stem: `splitext(basename(output))[0]`. -/
def out_stem (output : String) : String :=
  (splitext (pathBasename output)).1

/-- The output extension, forced to `.json` unless it already lowercases
to `.json`. -/
def out_ext (output : String) : String :=
  let ext := (splitext (pathBasename output)).2
  if strToLower ext ≠ ".json" then ".json" else ext

/-- The write loop of `main`: one output JSON per era, written era by
era; a failure while building leaves the files already written behind
(returned with the error). -/
def writePhase (pois : List String) (tau21_nominal : String) (alts : List String)
    (descr stem ext : String) :
    List (String × List (String × List (String × POIResult))) → List OutputFile →
    Except (PyErr × List OutputFile) (List OutputFile)
  | [], acc => .ok acc
  | (year, results) :: rest, acc =>
    match buildYearCorrections results pois tau21_nominal alts descr year with
    | .error e => .error (e, acc)
    | .ok corrs =>
      writePhase pois tau21_nominal alts descr stem ext rest
        (acc ++ [{ path := stem ++ "_" ++ year ++ ext,
                   cset := { schema_version := 2,
                             description := descr ++ " | " ++ year,
                             corrections := corrs } }])

/-- One iteration of the read loop of `main`, pairing the year with its
collected results (the `values_by_poi[...][year]` assignments). -/
def collectEra (fs : ExportFS) (datacards_dir : String)
    (pois required_tau21 : List String) (y : String) :
    Except PyErr (String × List (String × List (String × POIResult))) :=
  match collectYear fs datacards_dir pois required_tau21 y with
  | .error e => .error e
  | .ok r => .ok (y, r)

/-- `main` of the export script: the argument checks, the read phase over
every era, then the write phase.  An error is paired with the output
files written before it was raised. -/
def runMain (fs : ExportFS) (datacards_dir : String) (eras pois : List String)
    (tau21_nominal : String) (tau21_alternatives : List String)
    (output descr : String) : Except (PyErr × List OutputFile) (List OutputFile) :=
  let pt_edges : List ℚ := [300, 20000]
  if pt_edges.length ≠ 2 then
    .error (.systemExit "--pt-edges must have exactly 2 numbers", [])
  else if tau21_alternatives.isEmpty then
    .error (.systemExit "--tau21-alternatives must contain at least one label", [])
  else
    let required := tau21_nominal :: tau21_alternatives
    match mapExcept (collectEra fs datacards_dir pois required) eras with
    | .error e => .error (e, [])
    | .ok collected =>
      writePhase pois tau21_nominal tau21_alternatives descr
        (out_stem output) (out_ext output) collected []

end ExportScript

namespace CombineScript

/-!
Embedding of `src/mutag_calib/scripts/combine_ak8_sf_jsons.py`.
-/

/-- The `SYSTEMATICS` constant. -/
def SYSTEMATICS : List String :=
  ["nominal", "up", "down", "tau21Up", "tau21Down", "msdUp", "msdDown"]

/-- The `PT_BINS` constant: tag, low edge, high edge. -/
def PT_BINS : List (String × ℚ × ℚ) :=
  [("300to350", 300, 350), ("350to425", 350, 425), ("425toInf", 425, 20000)]

/-- The `ERAS` constant. -/
def ERAS : List String :=
  ["2022_preEE", "2022_postEE", "2023_preBPix", "2023_postBPix"]

/-- `load_values`, applied to the parsed corrections of one input file:
for each correction, read `data.content[0].content` into a dict keyed by
systematic, and key the result by correction name. -/
def load_values (file_corrections : List Correction) :
    Except PyErr (List (String × List (String × ℚ))) :=
  foldExcept (fun values corr =>
      match corr.data.content.head? with
      | none => .error (.indexError "list index out of range")
      | some cat =>
        .ok (dictInsert values corr.name
          (dictOfPairs (cat.content.map (fun e => (e.key, e.value)))))) [] file_corrections

/-- One `{"key": k, "value": syst_map[k]}` entry; the dict lookup raises
KeyError when the systematic is absent. -/
def syst_entry (syst_map : List (String × ℚ)) (k : String) : Except PyErr SystEntry :=
  match dictGet syst_map k with
  | some v => .ok ⟨k, v⟩
  | none => .error (.keyError k)

/-- One category node of `build_correction`, over all of `SYSTEMATICS`. -/
def category_node (syst_map : List (String × ℚ)) : Except PyErr CategoryNode :=
  match mapExcept (syst_entry syst_map) SYSTEMATICS with
  | .error e => .error e
  | .ok entries =>
    .ok { nodetype := "category", input := "systematic", content := entries, default := none }

/-- `build_correction` of the combine script. -/
def build_correction (name descr : String) (per_bin_values : List (List (String × ℚ))) :
    Except PyErr Correction :=
  match mapExcept category_node per_bin_values with
  | .error e => .error e
  | .ok content =>
    .ok { name := name, description := descr, version := 1,
          inputs := [⟨"pt", "real", "AK8 jet pT (GeV)"⟩,
                     ⟨"systematic", "string", "nominal|up|down|tau21Up|tau21Down|msdUp|msdDown"⟩],
          output := ⟨"sf", "real", "scale factor"⟩,
          data := { nodetype := "binning", input := "pt",
                    edges := PT_BINS.map (fun b => b.2.1) ++ [(PT_BINS.getLastD ("", 0, 0)).2.2],
                    content := content, flow := "clamp" } }

/-- The per-pT-bin body of the loop of `combine_era`: load the file of
one pT tag and pick out the first corrections whose names end in
`_SF_bb` and `_SF_cc`. -/
def load_bin (era : String) (files : String → List Correction) (pt_tag : String) :
    Except PyErr (List (String × ℚ) × List (String × ℚ)) :=
  match load_values (files pt_tag) with
  | .error e => .error e
  | .ok vals =>
    match vals.find? (fun kv => strEndsWith kv.1 "_SF_bb"),
          vals.find? (fun kv => strEndsWith kv.1 "_SF_cc") with
    | some bb, some cc => .ok (bb.2, cc.2)
    | _, _ => .error (.runtimeError ("Missing bb/cc corrections in " ++ pt_tag ++ " " ++ era))

/-- `combine_era`, with the parsed content of the three per-pT-bin input
files supplied as a function of the pT tag. -/
def combine_era (era : String) (files : String → List Correction) :
    Except PyErr OutputFile :=
  match mapExcept (load_bin era files) (PT_BINS.map (fun b => b.1)) with
  | .error e => .error e
  | .ok bins =>
    match build_correction ("HHbbww_" ++ era ++ "_SF_bb")
        ("HHbbww Run3 scale factors | combined pT bins | " ++ era ++ " | r")
        (bins.map Prod.fst) with
    | .error e => .error e
    | .ok corr_bb =>
      match build_correction ("HHbbww_" ++ era ++ "_SF_cc")
          ("HHbbww Run3 scale factors | combined pT bins | " ++ era ++ " | SF_c")
          (bins.map Prod.snd) with
      | .error e => .error e
      | .ok corr_cc =>
        .ok { path := "ak8_sf_msdtest_Pt-combined_" ++ era ++ ".json",
              cset := { schema_version := 2,
                        description := "HHbbww Run3 scale factors combined pT bins (300-350, 350-425, 425-Inf) for " ++ era,
                        corrections := [corr_bb, corr_cc] } }

end CombineScript

namespace ApplyScript

/-!
Embedding of `src/mutag_calib/scripts/apply_hhbbww_sf.py`.
-/

/-- What `_load_corrections` observes: whether the SF file exists and
which correction names the loaded correction set contains. -/
structure ApplyFS where
  pathExists : String → Bool
  csetKeys : String → List String

/-- `_load_corrections`: check the file exists, then check both the bb
and cc correction names are present; the result stands for the pair of
correction objects. -/
def _load_corrections (fs : ApplyFS) (sf_path year : String) :
    Except PyErr (String × String) :=
  if fs.pathExists sf_path = false then
    .error (.fileNotFoundError ("Scale factor file not found: " ++ sf_path))
  else
    let bb_name := "HHbbww_" ++ year ++ "_SF_bb"
    let cc_name := "HHbbww_" ++ year ++ "_SF_cc"
    if ((fs.csetKeys sf_path).contains bb_name && (fs.csetKeys sf_path).contains cc_name) = false then
      .error (.keyError ("Corrections " ++ bb_name ++ " / " ++ cc_name ++ " not found in " ++ sf_path))
    else .ok (bb_name, cc_name)

end ApplyScript

namespace ScaleFactors

/-!
Embedding of `src/mutag_calib/configs/fatjet_base/custom/scale_factors.py`.
The loaded correctionlib objects are passed as evaluation functions of
(pt, systematic); `np.sqrt` is passed as a function parameter `sq`; the
awkward flatten/unflatten round trip is elementwise, so the array code is
embedded per jet and per event.
-/

/-- One fat jet with the fields the SF code reads. -/
structure FatJet where
  pt : ℚ
  hadronFlavour : Int
  nBHadrons : Int
  nCHadrons : Int
deriving DecidableEq

/-- The bb-match mask: `(hadronFlavour == 5) & (nBHadrons >= 2)`. -/
def mask_bb (j : FatJet) : Bool :=
  j.hadronFlavour == 5 && decide (2 ≤ j.nBHadrons)

/-- The cc-match mask:
`(hadronFlavour == 4) & (nCHadrons >= 2) & (nBHadrons == 0)`. -/
def mask_cc (j : FatJet) : Bool :=
  j.hadronFlavour == 4 && decide (2 ≤ j.nCHadrons) && j.nBHadrons == 0

/-- `_hhbbww_per_jet_variations` for one jet and one variant key: the
five systematic evaluations, the quadrature sum, and the
nominal/totalUp/totalDown dict. -/
def _hhbbww_per_jet_variations (sq : ℚ → ℚ) (corr : ℚ → String → ℚ) (pt : ℚ)
    (key : String) : ℚ :=
  let nominal := corr pt "nominal"
  let up := corr pt "up"
  let down := corr pt "down"
  let tau21_up := corr pt "tau21Up"
  let tau21_down := corr pt "tau21Down"
  let delta_sq := (up - nominal) ^ 2 + (nominal - down) ^ 2
      + (tau21_up - nominal) ^ 2 + (nominal - tau21_down) ^ 2
  let sigma := sq delta_sq
  if key == "nominal" then nominal
  else if key == "totalUp" then nominal + sigma
  else nominal - sigma

/-- `_hhbbww_variations` for one jet: start from 1, overwrite with the bb
value where `mask_bb`, then with the cc value where `mask_cc` (the two
`ak.where` steps, elementwise). -/
def _hhbbww_variations (sq : ℚ → ℚ) (corr_bb corr_cc : ℚ → String → ℚ)
    (key : String) (j : FatJet) : ℚ :=
  if mask_cc j then _hhbbww_per_jet_variations sq corr_cc j.pt key
  else if mask_bb j then _hhbbww_per_jet_variations sq corr_bb j.pt key
  else 1

/-- The per-event weight of `sf_hhbbww`:
`fill_none(firsts(per_jet), 1.0) * fill_none(pad_none(per_jet, 2)[:, 1], 1.0)`. -/
def eventWeight (sq : ℚ → ℚ) (corr_bb corr_cc : ℚ → String → ℚ) (key : String)
    (jets : List FatJet) : ℚ :=
  let per_jet := jets.map (_hhbbww_variations sq corr_bb corr_cc key)
  let leading := per_jet.headD 1
  let subleading := (per_jet.get? 1).getD 1
  leading * subleading

/-- `sf_hhbbww`, with the loaded bb and cc corrections passed in. -/
def sf_hhbbww (sq : ℚ → ℚ) (corr_bb corr_cc : ℚ → String → ℚ)
    (events : List (List FatJet)) (systematic : String) : Except PyErr (List ℚ) :=
  if (["nominal", "totalUp", "totalDown"].contains systematic) = false then
    .error (.valueError "systematic must be one of: nominal, totalUp, totalDown")
  else
    .ok (events.map (eventWeight sq corr_bb corr_cc systematic))

end ScaleFactors

namespace WeightsConfig

/-!
Embedding of `src/mutag_calib/configs/fatjet_base/custom/weights.py`:
the argument binding of the wrapped weight functions.
-/

/-- The parameter list of `sf_hhbbww(events, year, systematic="nominal")`. -/
def sf_hhbbww_params : List String := ["events", "year", "systematic"]

/-- Python call binding for a function without `**kwargs`: the positional
arguments fill the leading parameters and every keyword argument must
name one of the remaining parameters, otherwise the call raises TypeError
before the body runs. -/
def bindCall (params : List String) (n_positional : Nat) (kwargs : List String) : Bool :=
  decide (n_positional ≤ params.length) &&
    kwargs.all (fun k => (params.drop n_positional).contains k)

/-- The call made by the `SF_hhbbww_bb` weight lambda:
`sf_hhbbww(events, metadata["year"], systematic=..., flavor="bb")` — two
positional arguments and the keyword arguments systematic and flavor.
The body (evaluating the scale factors) runs only if binding succeeds. -/
def SF_hhbbww_bb_call (body : Unit → α) : Except PyErr α :=
  if bindCall sf_hhbbww_params 2 ["systematic", "flavor"] then .ok (body ())
  else .error (.typeError "sf_hhbbww() got an unexpected keyword argument")

/-- The call made by the `SF_hhbbww_cc` weight lambda, identical except
for `flavor="cc"`. -/
def SF_hhbbww_cc_call (body : Unit → α) : Except PyErr α :=
  if bindCall sf_hhbbww_params 2 ["systematic", "flavor"] then .ok (body ())
  else .error (.typeError "sf_hhbbww() got an unexpected keyword argument")

end WeightsConfig

namespace Fixtures

/-!
Concrete inputs used by the witness and counterexample theorems.
-/

/-- A fit parameter whose asymmetric-error reads fail but whose symmetric
error is readable. -/
def malformedPars : List (String × ExportScript.RooParam) :=
  [("r", { val := 1, errorHi := none, errorLo := none, error := some (1/2) })]

/-- An apply-script state with no existing file. -/
def applyFsMissing : ApplyScript.ApplyFS :=
  { pathExists := fun _ => false, csetKeys := fun _ => [] }

/-- An apply-script state whose file exists but whose correction set is
empty. -/
def applyFsNoKeys : ApplyScript.ApplyFS :=
  { pathExists := fun _ => true, csetKeys := fun _ => [] }

/-- An export filesystem with no year directories. -/
def exportFsNoYear : ExportScript.ExportFS :=
  { yearIsDir := fun _ => false, ptDirMatches := fun _ => [], tauDirNames := fun _ => [],
    fitFileMatches := fun _ => [], loadFitS := fun _ => .error (.runtimeError "unused") }

/-- An export filesystem with a single tau21 working point 0p20. -/
def exportFsOneTau : ExportScript.ExportFS :=
  { yearIsDir := fun _ => true,
    ptDirMatches := fun y => [y ++ "/Pt-300toInf"],
    tauDirNames := fun _ => ["tau21_0p20"],
    fitFileMatches := fun d => [d ++ "/fitDiagnostics.root"],
    loadFitS := fun _ =>
      .ok [("r", { val := 1, errorHi := none, errorLo := none, error := some 1 })] }

/-- The pT directory of `exportFsOneTau` for era 2022_preEE. -/
def oneTauPtDir : String := "dc/2022_preEE/Pt-300toInf"

/-- The tau results collected from `exportFsOneTau`. -/
def oneTauResults : List (String × List (String × ExportScript.POIResult)) :=
  (mapExcept (ExportScript.processTau exportFsOneTau ["r"] oneTauPtDir)
    (exportFsOneTau.tauDirNames oneTauPtDir)).toOption.getD []

/-- A complete export filesystem: every year directory present, the five
tau21 working points, one fit file each, and fits with both POIs. -/
def exportFsGood : ExportScript.ExportFS :=
  { yearIsDir := fun _ => true,
    ptDirMatches := fun y => [y ++ "/Pt-300toInf"],
    tauDirNames := fun _ =>
      ["tau21_0p20", "tau21_0p25", "tau21_0p30", "tau21_0p35", "tau21_0p40"],
    fitFileMatches := fun d => [d ++ "/fitDiagnostics.root"],
    loadFitS := fun _ =>
      .ok [("r", { val := 1, errorHi := none, errorLo := none, error := some (1/10) }),
           ("SF_c", { val := 2, errorHi := none, errorLo := none, error := some (1/5) })] }

/-- The outputs of the successful export run on `exportFsGood`. -/
def goodRunOuts : List OutputFile :=
  (ExportScript.runMain exportFsGood "dc" ["2022_preEE"] ["r", "SF_c"] "0p30"
    ["0p20", "0p25", "0p35", "0p40"] "sf_corrections_run3" "d").toOption.getD []

/-- The single output file of the successful export run. -/
def goodOut : OutputFile :=
  goodRunOuts.headD { path := "", cset := { schema_version := 0, description := "", corrections := [] } }

/-- A seven-systematic category node for a combine-script input file. -/
def mkInCat (base : ℚ) : CategoryNode :=
  { nodetype := "category", input := "systematic",
    content := [⟨"nominal", base⟩, ⟨"up", base + 1/10⟩, ⟨"down", base - 1/10⟩,
                ⟨"tau21Up", base + 1/20⟩, ⟨"tau21Down", base - 1/20⟩,
                ⟨"msdUp", base + 1/30⟩, ⟨"msdDown", base - 1/30⟩],
    default := none }

/-- A single-pT-bin input correction for the combine script. -/
def mkInCorr (nm : String) (base : ℚ) : Correction :=
  { name := nm, description := "", version := 1, inputs := [],
    output := ⟨"sf", "real", ""⟩,
    data := { nodetype := "binning", input := "pt", edges := [300, 20000],
              content := [mkInCat base], flow := "clamp" } }

/-- The three per-pT-bin input files of one era for the combine script. -/
def combineFiles (tag : String) : List Correction :=
  if tag == "300to350" then [mkInCorr "A_SF_bb" 1, mkInCorr "A_SF_cc" 2]
  else if tag == "350to425" then [mkInCorr "A_SF_bb" 3, mkInCorr "A_SF_cc" 4]
  else [mkInCorr "A_SF_bb" 5, mkInCorr "A_SF_cc" 6]

/-- The values loaded from one combine input file. -/
def combineV (tag : String) : List (String × List (String × ℚ)) :=
  (CombineScript.load_values (combineFiles tag)).toOption.getD []

/-- The bb entry of one loaded combine input file. -/
def combineBB (tag : String) : String × List (String × ℚ) :=
  ((combineV tag).find? (fun kv => strEndsWith kv.1 "_SF_bb")).getD ("", [])

/-- The cc entry of one loaded combine input file. -/
def combineCC (tag : String) : String × List (String × ℚ) :=
  ((combineV tag).find? (fun kv => strEndsWith kv.1 "_SF_cc")).getD ("", [])

/-- Collected fit results of one year with a nominal and one alternative
tau21 working point. -/
def c10Results : List (String × List (String × ExportScript.POIResult)) :=
  [("0p30", [("r", { name := "r", value := 1, err_up := 1/10, err_down := 1/10 })]),
   ("0p20", [("r", { name := "r", value := 3/2, err_up := 1/10, err_down := 1/10 })])]

/-- The corrections built from `c10Results`. -/
def c10Corrs : List Correction :=
  (ExportScript.buildYearCorrections c10Results ["r"] "0p30" ["0p20"] "d" "2022_preEE").toOption.getD []

/-- The single correction built from `c10Results`. -/
def c10Corr : Correction := c10Corrs.headD (mkInCorr "x" 0)

/-- The single category node of `c10Corr`. -/
def c10Cat : CategoryNode := c10Corr.data.content.headD ⟨"", "", [], none⟩

/-- A bb-matched jet. -/
def bbJet : ScaleFactors.FatJet :=
  { pt := 400, hadronFlavour := 5, nBHadrons := 2, nCHadrons := 0 }

/-- A jet that is neither bb- nor cc-matched. -/
def lightJet : ScaleFactors.FatJet :=
  { pt := 400, hadronFlavour := 0, nBHadrons := 0, nCHadrons := 0 }

end Fixtures

/-- Claim C1: the systematic category built by the export script from a
POIResult maps nominal to value, up to value + err_up, down to
value - err_down, and, when a tau21 uncertainty u is supplied, tau21Up to
value + u and tau21Down to value - u. -/
theorem C1_systematic_category_entries (res : ExportScript.POIResult)
    (t : Option ℚ) (u : ℚ) :
    catLookup (ExportScript._systematic_category res t) "nominal" = some res.value ∧
    catLookup (ExportScript._systematic_category res t) "up" = some (res.value + res.err_up) ∧
    catLookup (ExportScript._systematic_category res t) "down" = some (res.value - res.err_down) ∧
    catLookup (ExportScript._systematic_category res (some u)) "tau21Up" = some (res.value + u) ∧
    catLookup (ExportScript._systematic_category res (some u)) "tau21Down" = some (res.value - u) := by
  cases t <;> exact ⟨rfl, rfl, rfl, rfl, rfl⟩

/-- Successful traversal relates inputs and outputs pointwise. -/
theorem mapExcept_ok_forall2 {α β : Type} {f : α → Except PyErr β} :
    ∀ {l : List α} {r : List β}, mapExcept f l = .ok r →
      List.Forall₂ (fun a b => f a = .ok b) l r := by
  intro l
  induction l with
  | nil =>
    intro r h
    simp only [mapExcept, Except.ok.injEq] at h
    subst h
    exact List.Forall₂.nil
  | cons a as ih =>
    intro r h
    simp only [mapExcept] at h
    cases hfa : f a with
    | error e => rw [hfa] at h; exact absurd h (by simp)
    | ok b =>
      rw [hfa] at h
      cases hrec : mapExcept f as with
      | error e => rw [hrec] at h; exact absurd h (by simp)
      | ok bs =>
        rw [hrec] at h
        simp only [Except.ok.injEq] at h
        subst h
        exact List.Forall₂.cons hfa (ih hrec)

/-- If one element of the list makes the loop body raise, the loop
raises. -/
theorem mapExcept_error_of_mem {α β : Type} {f : α → Except PyErr β} {l : List α}
    {y : α} {e : PyErr} (hy : y ∈ l) (hf : f y = .error e) :
    ∃ e2, mapExcept f l = .error e2 := by
  induction l with
  | nil => cases hy
  | cons a as ih =>
    cases hfa : f a with
    | error e3 => exact ⟨e3, by simp only [mapExcept]; rw [hfa]⟩
    | ok b =>
      rcases List.mem_cons.mp hy with h | h
      · subst h; rw [hfa] at hf; exact absurd hf (by simp)
      · obtain ⟨e2, h2⟩ := ih h
        exact ⟨e2, by simp only [mapExcept]; rw [hfa, h2]⟩

/-- If the loop body succeeds on every element, the loop succeeds, with
the claimed relation holding pointwise. -/
theorem mapExcept_ok_of_all {α β : Type} {f : α → Except PyErr β} {P : α → β → Prop} :
    ∀ (l : List α), (∀ a ∈ l, ∃ b, f a = .ok b ∧ P a b) →
      ∃ r, mapExcept f l = .ok r ∧ List.Forall₂ P l r := by
  intro l
  induction l with
  | nil => exact fun _ => ⟨[], rfl, List.Forall₂.nil⟩
  | cons a as ih =>
    intro h
    obtain ⟨b, hb, hPb⟩ := h a (List.mem_cons_self a as)
    obtain ⟨r, hr, hPr⟩ := ih (fun x hx => h x (List.mem_cons_of_mem a hx))
    refine ⟨b :: r, ?_, List.Forall₂.cons hPb hPr⟩
    simp only [mapExcept]
    rw [hb, hr]

/-- The tau21 max-fold only grows from its accumulator. -/
theorem tau21_fold_le (nominal : ExportScript.POIResult) :
    ∀ (alts : List ExportScript.POIResult) (acc : ℚ),
      acc ≤ alts.foldl (fun acc alt => max acc |alt.value - nominal.value|) acc := by
  intro alts
  induction alts with
  | nil => intro acc; exact le_refl acc
  | cons b bs ih =>
    intro acc
    rw [List.foldl_cons]
    calc acc ≤ max acc |b.value - nominal.value| := le_max_left _ _
      _ ≤ _ := ih _

/-- The derived tau21 uncertainty is non-negative. -/
theorem tau21_uncertainty_nonneg (nominal : ExportScript.POIResult)
    (alts : List ExportScript.POIResult) :
    0 ≤ ExportScript.tau21_uncertainty nominal alts :=
  tau21_fold_le nominal alts 0

/-- The tau21 max-fold bounds every alternative deviation. -/
theorem tau21_fold_bound (nominal : ExportScript.POIResult) :
    ∀ (alts : List ExportScript.POIResult) (acc : ℚ)
      (a : ExportScript.POIResult), a ∈ alts →
      |a.value - nominal.value|
        ≤ alts.foldl (fun acc alt => max acc |alt.value - nominal.value|) acc := by
  intro alts
  induction alts with
  | nil => intro acc a ha; cases ha
  | cons b bs ih =>
    intro acc a ha
    rw [List.foldl_cons]
    rcases List.mem_cons.mp ha with rfl | ha2
    · exact le_trans (le_max_right _ _) (tau21_fold_le nominal bs _)
    · exact ih _ a ha2

/-- The tau21 max-fold either stays at its accumulator or is attained at
some alternative. -/
theorem tau21_fold_attained (nominal : ExportScript.POIResult) :
    ∀ (alts : List ExportScript.POIResult) (acc : ℚ),
      alts.foldl (fun acc alt => max acc |alt.value - nominal.value|) acc = acc ∨
      ∃ a ∈ alts, alts.foldl (fun acc alt => max acc |alt.value - nominal.value|) acc
          = |a.value - nominal.value| := by
  intro alts
  induction alts with
  | nil => intro acc; exact Or.inl rfl
  | cons b bs ih =>
    intro acc
    rw [List.foldl_cons]
    rcases ih (max acc |b.value - nominal.value|) with h | ⟨a, ha, h⟩
    · rcases max_choice acc |b.value - nominal.value| with hm | hm
      · exact Or.inl (h.trans hm)
      · exact Or.inr ⟨b, List.mem_cons_self b bs, h.trans hm⟩
    · exact Or.inr ⟨a, List.mem_cons_of_mem b ha, h⟩

/-- Shape of a correction built by the export script. -/
theorem export_build_shape {n d p : String} {nom : ExportScript.POIResult}
    {edges : List ℚ} {u : ℚ} {c : Correction}
    (h : ExportScript.build_correction n d p nom edges u = .ok c) :
    c.name = n ∧ c.version = 1 ∧ c.data.nodetype = "binning" ∧ c.data.input = "pt" ∧
    c.data.flow = "clamp" ∧
    c.data.content = [ExportScript._systematic_category nom (some u)] ∧
    ∃ e0 e1, edges = [e0, e1] ∧ c.data.edges = [e0, e1] := by
  unfold ExportScript.build_correction at h
  cases hpb : ExportScript._pt_binning edges nom (some u) with
  | error e => rw [hpb] at h; exact absurd h (by simp)
  | ok bdata =>
    rw [hpb] at h
    simp only [Except.ok.injEq] at h
    subst h
    unfold ExportScript._pt_binning at hpb
    rcases edges with _ | ⟨e0, _ | ⟨e1, _ | ⟨e2, rest⟩⟩⟩
    · simp at hpb
    · simp at hpb
    · simp only [Except.ok.injEq] at hpb
      subst hpb
      exact ⟨rfl, rfl, rfl, rfl, rfl, rfl, e0, e1, rfl, rfl⟩
    · simp at hpb

/-- Shape of a per-POI correction built by the write loop of `main`. -/
theorem build_year_shape {results : List (String × List (String × ExportScript.POIResult))}
    {tauNom : String} {alts : List String} {descr year poi : String} {c : Correction}
    (h : ExportScript.build_year_correction results tauNom alts descr year poi = .ok c) :
    c.name = "HHbbww_" ++ year ++ "_" ++ ExportScript.poi_alias poi ∧ c.version = 1 ∧
    c.data.nodetype = "binning" ∧ c.data.input = "pt" ∧ c.data.flow = "clamp" ∧
    ∃ nom u, 0 ≤ u ∧
      c.data.content = [ExportScript._systematic_category nom (some u)] := by
  unfold ExportScript.build_year_correction at h
  cases hn : ExportScript.lookupResult results tauNom poi with
  | none => rw [hn] at h; exact absurd h (by simp)
  | some nominal =>
    rw [hn] at h
    cases hm : mapExcept (ExportScript.lookup_alt results poi) alts with
    | error e => rw [hm] at h; exact absurd h (by simp)
    | ok alt_results =>
      rw [hm] at h
      obtain ⟨h1, h2, h3, h4, h5, h6, -⟩ := export_build_shape h
      exact ⟨h1, h2, h3, h4, h5, nominal, _,
        tau21_uncertainty_nonneg nominal alt_results, h6⟩

/-- A right element of a pointwise relation has a related left element. -/
theorem forall2_mem_right {α β : Type} {R : α → β → Prop} :
    ∀ {l1 : List α} {l2 : List β}, List.Forall₂ R l1 l2 → ∀ b ∈ l2, ∃ a ∈ l1, R a b := by
  intro l1 l2 h
  induction h with
  | nil => intro b hb; cases hb
  | cons hab hrest ih =>
    intro b hb
    rcases List.mem_cons.mp hb with rfl | hb2
    · exact ⟨_, List.mem_cons_self _ _, hab⟩
    · obtain ⟨a, ha, hR⟩ := ih b hb2
      exact ⟨a, List.mem_cons_of_mem _ ha, hR⟩

/-- Claim C7: the data node of each correction built by the export script
and by the combine script is a binning over input pt with flow clamp. -/
theorem C7_clamped_pt_binning :
    (∀ (n d p : String) (nom : ExportScript.POIResult) (edges : List ℚ) (u : ℚ)
       (c : Correction), ExportScript.build_correction n d p nom edges u = .ok c →
       c.data.nodetype = "binning" ∧ c.data.input = "pt" ∧ c.data.flow = "clamp") ∧
    (∀ (n d : String) (maps : List (List (String × ℚ))) (c : Correction),
       CombineScript.build_correction n d maps = .ok c →
       c.data.nodetype = "binning" ∧ c.data.input = "pt" ∧ c.data.flow = "clamp") := by
  constructor
  · intro n d p nom edges u c h
    obtain ⟨-, -, h3, h4, h5, -, -⟩ := export_build_shape h
    exact ⟨h3, h4, h5⟩
  · intro n d maps c h
    unfold CombineScript.build_correction at h
    cases hm : mapExcept CombineScript.category_node maps with
    | error e => rw [hm] at h; exact absurd h (by simp)
    | ok content =>
      rw [hm] at h
      simp only [Except.ok.injEq] at h
      subst h
      exact ⟨rfl, rfl, rfl⟩

/-- Witness for C7 at a one-bin export correction and an empty-bin-list
combine correction. -/
theorem C7_witness :
    (((ExportScript.build_correction "n" "d" "r" ⟨"r", 1, 0, 0⟩ [300, 20000] 0).toOption.getD
        (Fixtures.mkInCorr "x" 0)).data.nodetype = "binning" ∧
     ((ExportScript.build_correction "n" "d" "r" ⟨"r", 1, 0, 0⟩ [300, 20000] 0).toOption.getD
        (Fixtures.mkInCorr "x" 0)).data.input = "pt" ∧
     ((ExportScript.build_correction "n" "d" "r" ⟨"r", 1, 0, 0⟩ [300, 20000] 0).toOption.getD
        (Fixtures.mkInCorr "x" 0)).data.flow = "clamp") ∧
    (((CombineScript.build_correction "n" "d" []).toOption.getD
        (Fixtures.mkInCorr "x" 0)).data.nodetype = "binning" ∧
     ((CombineScript.build_correction "n" "d" []).toOption.getD
        (Fixtures.mkInCorr "x" 0)).data.input = "pt" ∧
     ((CombineScript.build_correction "n" "d" []).toOption.getD
        (Fixtures.mkInCorr "x" 0)).data.flow = "clamp") :=
  ⟨C7_clamped_pt_binning.1 "n" "d" "r" ⟨"r", 1, 0, 0⟩ [300, 20000] 0 _ rfl,
   C7_clamped_pt_binning.2 "n" "d" [] _ rfl⟩

/-- Claim C8: the weight wrappers SF_hhbbww_bb and SF_hhbbww_cc pass a
flavor keyword argument that sf_hhbbww does not accept, so every
invocation raises TypeError before any scale factor is evaluated (the
result does not depend on the wrapped body). -/
theorem C8_wrappers_raise_type_error :
    ∀ (α : Type) (body : Unit → α),
      (∃ e, WeightsConfig.SF_hhbbww_bb_call body = .error e ∧ e.isTypeError = true) ∧
      (∃ e, WeightsConfig.SF_hhbbww_cc_call body = .error e ∧ e.isTypeError = true) := by
  intro α body
  exact ⟨⟨_, rfl, rfl⟩, ⟨_, rfl, rfl⟩⟩

/-- Counterexample to C3 as stated: a parameter whose asymmetric-error
reads fail (`getErrorHi`/`getErrorLo` raise) does not make
`_get_poi_result` raise; the symmetric error 1/2 is silently substituted
for both sides. -/
theorem C3_counterexample_silent_fallback :
    ExportScript._get_poi_result Fixtures.malformedPars "r"
        = .ok { name := "r", value := 1, err_up := 1/2, err_down := 1/2 } ∧
    (∀ e, ExportScript._get_poi_result Fixtures.malformedPars "r" ≠ .error e) ∧
    (Fixtures.malformedPars.find? (fun p => p.1 == "r")).map (fun pr => pr.2.errorHi)
        = some none := by
  have h1 : ExportScript._get_poi_result Fixtures.malformedPars "r"
      = .ok { name := "r", value := 1, err_up := 1/2, err_down := 1/2 } := rfl
  refine ⟨h1, ?_, rfl⟩
  intro e h
  rw [h1] at h
  exact Except.noConfusion h

/-- Claim C3 (amended): `_get_poi_result` raises KeyError when the POI is
absent from `fit_s.floatParsFinal()`; when the asymmetric per-parameter
error information is unreadable, or both asymmetric errors are zero, it
silently falls back to the symmetric `getError()` value, and raises only
when that fallback read also fails. -/
theorem C3_amended_poi_extraction (pars : List (String × ExportScript.RooParam))
    (poi : String) :
    (pars.find? (fun p => p.1 == poi) = none →
      ∃ e, ExportScript._get_poi_result pars poi = .error e ∧ e.isKeyError = true) ∧
    (∀ pr, pars.find? (fun p => p.1 == poi) = some pr →
      (pr.2.errorHi = none ∨ pr.2.errorLo = none ∨
       (pr.2.errorHi = some 0 ∧ pr.2.errorLo = some 0)) →
      (∀ q, pr.2.error = some q →
        ExportScript._get_poi_result pars poi
            = .ok { name := poi, value := pr.2.val, err_up := q, err_down := q }) ∧
      (pr.2.error = none →
        ∃ e, ExportScript._get_poi_result pars poi = .error e)) := by
  constructor
  · intro hfind
    refine ⟨.keyError ("POI " ++ poi ++ " not found in fit_s.floatParsFinal()"), ?_, rfl⟩
    unfold ExportScript._get_poi_result
    rw [hfind]
  · intro pr hfind hmal
    obtain ⟨k, vl, ehi, elo, err⟩ := pr
    dsimp only at hmal ⊢
    constructor
    · intro q hq
      subst hq
      unfold ExportScript._get_poi_result
      rw [hfind]
      rcases hmal with h | h | ⟨h1, h2⟩
      · subst h; cases elo <;> rfl
      · subst h; cases ehi <;> rfl
      · subst h1; subst h2; simp
    · intro hq
      subst hq
      refine ⟨.runtimeError "getError read failed", ?_⟩
      unfold ExportScript._get_poi_result
      rw [hfind]
      rcases hmal with h | h | ⟨h1, h2⟩
      · subst h; cases elo <;> rfl
      · subst h; cases ehi <;> rfl
      · subst h1; subst h2; simp

/-- Witness for the amended C3: an empty parameter list raises KeyError,
and the malformed-error parameter gets the symmetric fallback. -/
theorem C3_amended_witness :
    (∃ e, ExportScript._get_poi_result [] "r" = .error e ∧ e.isKeyError = true) ∧
    ExportScript._get_poi_result Fixtures.malformedPars "r"
        = .ok { name := "r", value := 1, err_up := 1/2, err_down := 1/2 } :=
  ⟨(C3_amended_poi_extraction [] "r").1 rfl,
   ((C3_amended_poi_extraction Fixtures.malformedPars "r").2
      ("r", { val := 1, errorHi := none, errorLo := none, error := some (1/2) })
      rfl (Or.inl rfl)).1 (1/2) rfl⟩

/-- Claim C10: the tau21 systematic uncertainty derived by the export
script is the maximum over the alternative working points of
|SF_alt - SF_nominal| (it bounds every deviation and is attained at one
when alternatives exist), hence non-negative, so every emitted category
satisfies tau21Up >= nominal >= tau21Down. -/
theorem C10_tau21_uncertainty_ordering :
    (∀ (nom : ExportScript.POIResult) (alts : List ExportScript.POIResult),
       0 ≤ ExportScript.tau21_uncertainty nom alts) ∧
    (∀ (nom : ExportScript.POIResult) (alts : List ExportScript.POIResult)
       (a : ExportScript.POIResult), a ∈ alts →
       |a.value - nom.value| ≤ ExportScript.tau21_uncertainty nom alts) ∧
    (∀ (nom : ExportScript.POIResult) (alts : List ExportScript.POIResult), alts ≠ [] →
       ∃ a ∈ alts, ExportScript.tau21_uncertainty nom alts = |a.value - nom.value|) ∧
    (∀ (results : List (String × List (String × ExportScript.POIResult)))
       (pois : List String) (tauNom : String) (alts : List String)
       (descr year : String) (corrs : List Correction),
       ExportScript.buildYearCorrections results pois tauNom alts descr year = .ok corrs →
       ∀ c ∈ corrs, ∀ cat ∈ c.data.content,
         ∃ nv up dn, catLookup cat "nominal" = some nv ∧
           catLookup cat "tau21Up" = some up ∧ catLookup cat "tau21Down" = some dn ∧
           dn ≤ nv ∧ nv ≤ up) := by
  refine ⟨tau21_uncertainty_nonneg, ?_, ?_, ?_⟩
  · intro nom alts a ha
    exact tau21_fold_bound nom alts 0 a ha
  · intro nom alts hne
    rcases tau21_fold_attained nom alts 0 with h | ⟨a, ha, h⟩
    · rcases alts with _ | ⟨a, as⟩
      · exact absurd rfl hne
      · have hb := tau21_fold_bound nom (a :: as) 0 a (List.mem_cons_self a as)
        have h0 : |a.value - nom.value| = 0 :=
          le_antisymm (le_of_le_of_eq hb h) (abs_nonneg _)
        exact ⟨a, List.mem_cons_self a as, h.trans h0.symm⟩
    · exact ⟨a, ha, h⟩
  · intro results pois tauNom alts descr year corrs h c hc cat hcat
    unfold ExportScript.buildYearCorrections at h
    have h2 := mapExcept_ok_forall2 h
    obtain ⟨poi, hpoi, hbc⟩ := forall2_mem_right h2 c hc
    obtain ⟨-, -, -, -, -, nom, u, hu, hcontent⟩ := build_year_shape hbc
    rw [hcontent] at hcat
    have hceq := List.mem_singleton.mp hcat
    subst hceq
    exact ⟨nom.value, nom.value + u, nom.value - u, rfl, rfl, rfl,
      by linarith, by linarith⟩

/-- Witness for C10 on the concrete collected results `c10Results`. -/
theorem C10_witness :
    ∃ nv up dn, catLookup Fixtures.c10Cat "nominal" = some nv ∧
      catLookup Fixtures.c10Cat "tau21Up" = some up ∧
      catLookup Fixtures.c10Cat "tau21Down" = some dn ∧ dn ≤ nv ∧ nv ≤ up :=
  C10_tau21_uncertainty_ordering.2.2.2 Fixtures.c10Results ["r"] "0p30" ["0p20"] "d"
    "2022_preEE" Fixtures.c10Corrs rfl Fixtures.c10Corr
    (by rw [show Fixtures.c10Corrs = [Fixtures.c10Corr] from rfl]
        exact List.mem_singleton_self _)
    Fixtures.c10Cat
    (by rw [show Fixtures.c10Corr.data.content = [Fixtures.c10Cat] from rfl]
        exact List.mem_singleton_self _)

/-- Claim C4: `_load_corrections` raises FileNotFoundError when the SF
file path does not exist and KeyError when a required bb/cc correction
name is absent from the loaded set; the export script raises
FileNotFoundError when a year directory is missing, when no
fitDiagnostics ROOT file is found, and when a required tau21 folder is
missing. -/
theorem C4_missing_inputs_raise :
    (∀ (fs : ApplyScript.ApplyFS) (sf_path year : String),
       fs.pathExists sf_path = false →
       ∃ e, ApplyScript._load_corrections fs sf_path year = .error e ∧
         e.isFileNotFound = true) ∧
    (∀ (fs : ApplyScript.ApplyFS) (sf_path year : String),
       fs.pathExists sf_path = true →
       ((fs.csetKeys sf_path).contains ("HHbbww_" ++ year ++ "_SF_bb") = false ∨
        (fs.csetKeys sf_path).contains ("HHbbww_" ++ year ++ "_SF_cc") = false) →
       ∃ e, ApplyScript._load_corrections fs sf_path year = .error e ∧
         e.isKeyError = true) ∧
    (∀ (fs : ExportScript.ExportFS) (dir : String) (pois req : List String)
       (year : String), fs.yearIsDir (dir ++ "/" ++ year) = false →
       ∃ e, ExportScript.collectYear fs dir pois req year = .error e ∧
         e.isFileNotFound = true) ∧
    (∀ (fit_dir : String),
       ∃ e, ExportScript._find_fit_file fit_dir [] = .error e ∧
         e.isFileNotFound = true) ∧
    (∀ (fs : ExportScript.ExportFS) (dir : String) (pois req : List String)
       (year pt_dir : String)
       (results : List (String × List (String × ExportScript.POIResult))) (t : String),
       fs.yearIsDir (dir ++ "/" ++ year) = true →
       fs.ptDirMatches (dir ++ "/" ++ year) = [pt_dir] →
       fs.tauDirNames pt_dir ≠ [] →
       mapExcept (ExportScript.processTau fs pois pt_dir) (fs.tauDirNames pt_dir)
           = .ok results →
       t ∈ req → (results.map Prod.fst).contains t = false →
       ∃ e, ExportScript.collectYear fs dir pois req year = .error e ∧
         e.isFileNotFound = true) := by
  refine ⟨?_, ?_, ?_, ?_, ?_⟩
  · intro fs sf_path year h
    refine ⟨.fileNotFoundError ("Scale factor file not found: " ++ sf_path), ?_, rfl⟩
    simp [ApplyScript._load_corrections, h]
  · intro fs sf_path year hex hkeys
    have hand : ((fs.csetKeys sf_path).contains ("HHbbww_" ++ year ++ "_SF_bb") &&
        (fs.csetKeys sf_path).contains ("HHbbww_" ++ year ++ "_SF_cc")) = false := by
      rcases hkeys with h | h
      · rw [h]; exact Bool.false_and _
      · rw [h]; exact Bool.and_false _
    refine ⟨.keyError ("Corrections " ++ ("HHbbww_" ++ year ++ "_SF_bb") ++ " / "
      ++ ("HHbbww_" ++ year ++ "_SF_cc") ++ " not found in " ++ sf_path), ?_, rfl⟩
    simp only [ApplyScript._load_corrections, hex, hand]
    rfl
  · intro fs dir pois req year h
    refine ⟨.fileNotFoundError ("Missing year directory: " ++ (dir ++ "/" ++ year)), ?_, rfl⟩
    simp [ExportScript.collectYear, h]
  · intro fit_dir
    exact ⟨.fileNotFoundError ("No fitDiagnostics ROOT file found in: " ++ fit_dir), rfl, rfl⟩
  · intro fs dir pois req year pt_dir results t h1 h2 h3 hmap ht hcont
    have htau : (fs.tauDirNames pt_dir).isEmpty = false := by
      cases hte : (fs.tauDirNames pt_dir).isEmpty
      · rfl
      · exact absurd (List.isEmpty_iff.mp hte) h3
    have hmiss : t ∈ req.filter (fun t => ! (results.map Prod.fst).contains t) :=
      List.mem_filter.mpr ⟨ht, by rw [hcont]; rfl⟩
    have hne : (req.filter (fun t => ! (results.map Prod.fst).contains t)).isEmpty = false := by
      cases hfe : (req.filter (fun t => ! (results.map Prod.fst).contains t)).isEmpty
      · rfl
      · rw [List.isEmpty_iff.mp hfe] at hmiss
        cases hmiss
    refine ⟨.fileNotFoundError ("Missing required tau21 folders under: " ++ pt_dir), ?_, rfl⟩
    simp only [ExportScript.collectYear, h1, h2, ExportScript._find_unique_dir, htau, hmap, hne]
    rfl

/-- Witness for C4: each missing-input scenario at a concrete state. -/
theorem C4_witness :
    (∃ e, ApplyScript._load_corrections Fixtures.applyFsMissing "sf.json" "2022_preEE"
        = .error e ∧ e.isFileNotFound = true) ∧
    (∃ e, ApplyScript._load_corrections Fixtures.applyFsNoKeys "sf.json" "2022_preEE"
        = .error e ∧ e.isKeyError = true) ∧
    (∃ e, ExportScript.collectYear Fixtures.exportFsNoYear "dc" ["r"] ["0p30"] "2022_preEE"
        = .error e ∧ e.isFileNotFound = true) ∧
    (∃ e, ExportScript._find_fit_file "fitdir" [] = .error e ∧ e.isFileNotFound = true) ∧
    (∃ e, ExportScript.collectYear Fixtures.exportFsOneTau "dc" ["r"] ["0p30", "0p20"]
        "2022_preEE" = .error e ∧ e.isFileNotFound = true) :=
  ⟨C4_missing_inputs_raise.1 Fixtures.applyFsMissing "sf.json" "2022_preEE" rfl,
   C4_missing_inputs_raise.2.1 Fixtures.applyFsNoKeys "sf.json" "2022_preEE" rfl (Or.inl rfl),
   C4_missing_inputs_raise.2.2.1 Fixtures.exportFsNoYear "dc" ["r"] ["0p30"] "2022_preEE" rfl,
   C4_missing_inputs_raise.2.2.2.1 "fitdir",
   C4_missing_inputs_raise.2.2.2.2 Fixtures.exportFsOneTau "dc" ["r"] ["0p30", "0p20"]
     "2022_preEE" Fixtures.oneTauPtDir Fixtures.oneTauResults "0p30" rfl rfl
     (by decide) rfl (by decide) rfl⟩

/-- Claim C5: if the read phase fails for any configured era, `main` of
the export script raises with no output file written; in particular no
run that raises during reading returns an output list. -/
theorem C5_read_failure_writes_nothing (fs : ExportScript.ExportFS) (dir : String)
    (eras pois : List String) (tauNom : String) (alts : List String)
    (output descr : String) (y : String) (hy : y ∈ eras) (e : PyErr)
    (hfail : ExportScript.collectYear fs dir pois (tauNom :: alts) y = .error e) :
    (∃ e2, ExportScript.runMain fs dir eras pois tauNom alts output descr
        = .error (e2, [])) ∧
    ∀ outs, ExportScript.runMain fs dir eras pois tauNom alts output descr ≠ .ok outs := by
  have hmain : ∃ e2, ExportScript.runMain fs dir eras pois tauNom alts output descr
      = .error (e2, []) := by
    unfold ExportScript.runMain
    cases halts : alts.isEmpty
    · have hce : ExportScript.collectEra fs dir pois (tauNom :: alts) y = .error e := by
        unfold ExportScript.collectEra
        rw [hfail]
      obtain ⟨e2, hme⟩ := mapExcept_error_of_mem hy hce
      refine ⟨e2, ?_⟩
      simp only [halts, hme]
      rfl
    · refine ⟨.systemExit "--tau21-alternatives must contain at least one label", ?_⟩
      simp only [halts]
      rfl
  refine ⟨hmain, ?_⟩
  intro outs hok
  obtain ⟨e2, he⟩ := hmain
  rw [he] at hok
  exact Except.noConfusion hok

/-- Witness for C5: a run over one era whose year directory is missing
errors out with the empty written-file list. -/
theorem C5_witness :
    ∃ e2, ExportScript.runMain Fixtures.exportFsNoYear "dc" ["2022_preEE"] ["r", "SF_c"]
        "0p30" ["0p20"] "sf_corrections_run3" "d" = .error (e2, []) :=
  (C5_read_failure_writes_nothing Fixtures.exportFsNoYear "dc" ["2022_preEE"] ["r", "SF_c"]
    "0p30" ["0p20"] "sf_corrections_run3" "d" "2022_preEE" (List.mem_singleton_self _)
    (.fileNotFoundError "Missing year directory: dc/2022_preEE") rfl).1

/-- The normalized output extension always lowercases to `.json`. -/
theorem out_ext_lower (output : String) :
    strToLower (ExportScript.out_ext output) = ".json" := by
  unfold ExportScript.out_ext
  by_cases h : strToLower (splitext (pathBasename output)).2 ≠ ".json"
  · rw [if_pos h]; rfl
  · rw [if_neg h]; exact not_not.mp h

/-- The write loop of `main` appends exactly one output per collected
era, of the stated shape. -/
theorem writePhase_ok {pois : List String} {tauNom : String} {alts : List String}
    {descr stem ext : String} :
    ∀ (items : List (String × List (String × List (String × ExportScript.POIResult))))
      (acc outs : List OutputFile),
      ExportScript.writePhase pois tauNom alts descr stem ext items acc = .ok outs →
      ∃ created, outs = acc ++ created ∧
        List.Forall₂ (fun it (o : OutputFile) =>
          ∃ corrs, ExportScript.buildYearCorrections it.2 pois tauNom alts descr it.1
              = .ok corrs ∧
            o = { path := stem ++ "_" ++ it.1 ++ ext,
                  cset := { schema_version := 2, description := descr ++ " | " ++ it.1,
                            corrections := corrs } }) items created := by
  intro items
  induction items with
  | nil =>
    intro acc outs h
    simp only [ExportScript.writePhase, Except.ok.injEq] at h
    exact ⟨[], by rw [← h, List.append_nil], List.Forall₂.nil⟩
  | cons it rest ih =>
    intro acc outs h
    obtain ⟨year, results⟩ := it
    simp only [ExportScript.writePhase] at h
    cases hb : ExportScript.buildYearCorrections results pois tauNom alts descr year with
    | error e => rw [hb] at h; exact absurd h (by simp)
    | ok corrs =>
      rw [hb] at h
      obtain ⟨created, houts, hfa⟩ := ih _ outs h
      refine ⟨{ path := stem ++ "_" ++ year ++ ext,
                cset := { schema_version := 2, description := descr ++ " | " ++ year,
                          corrections := corrs } } :: created, ?_,
        List.Forall₂.cons ⟨corrs, hb, rfl⟩ hfa⟩
      rw [houts]
      simp [List.append_assoc]

/-- The corrections of one era are named per POI alias and carry
version 1. -/
theorem buildYearCorrections_names {results : List (String × List (String × ExportScript.POIResult))}
    {pois : List String} {tauNom : String} {alts : List String} {descr year : String}
    {corrs : List Correction}
    (h : ExportScript.buildYearCorrections results pois tauNom alts descr year = .ok corrs) :
    corrs.map Correction.name
        = pois.map (fun p => "HHbbww_" ++ year ++ "_" ++ ExportScript.poi_alias p) ∧
    ∀ c ∈ corrs, c.version = 1 := by
  unfold ExportScript.buildYearCorrections at h
  have h2 := mapExcept_ok_forall2 h
  clear h
  induction h2 with
  | nil => exact ⟨rfl, by intro c hc; cases hc⟩
  | cons hab hrest ih =>
    obtain ⟨hn, hv⟩ := ih
    obtain ⟨hname, hver, -⟩ := build_year_shape hab
    constructor
    · simp only [List.map]
      rw [hname, hn]
    · intro c hc
      rcases List.mem_cons.mp hc with rfl | hc2
      · exact hver
      · exact hv c hc2

/-- Claim C6: a successful export run writes exactly one JSON file per
configured era, named stem_era.ext with the extension lowercasing to
.json, whose top level has schema_version 2 and which contains, for each
exported POI, one correction named HHbbww_era_alias (alias SF_bb for POI
r, SF_cc for POI SF_c) with version 1. -/
theorem C6_versioned_per_era_files (fs : ExportScript.ExportFS) (dir : String)
    (eras pois : List String) (tauNom : String) (alts : List String)
    (output descr : String) (outs : List OutputFile)
    (h : ExportScript.runMain fs dir eras pois tauNom alts output descr = .ok outs) :
    outs.length = eras.length ∧
    ExportScript.poi_alias "r" = "SF_bb" ∧ ExportScript.poi_alias "SF_c" = "SF_cc" ∧
    strToLower (ExportScript.out_ext output) = ".json" ∧
    ∀ i (h1 : i < eras.length) (h2 : i < outs.length),
      (outs.get ⟨i, h2⟩).path = ExportScript.out_stem output ++ "_" ++ eras.get ⟨i, h1⟩
          ++ ExportScript.out_ext output ∧
      (outs.get ⟨i, h2⟩).cset.schema_version = 2 ∧
      (outs.get ⟨i, h2⟩).cset.corrections.map Correction.name
          = pois.map (fun p => "HHbbww_" ++ eras.get ⟨i, h1⟩ ++ "_" ++ ExportScript.poi_alias p) ∧
      ∀ c ∈ (outs.get ⟨i, h2⟩).cset.corrections, c.version = 1 := by
  have hstep : ExportScript.runMain fs dir eras pois tauNom alts output descr
      = if alts.isEmpty then
          .error (.systemExit "--tau21-alternatives must contain at least one label", [])
        else
          match mapExcept (ExportScript.collectEra fs dir pois (tauNom :: alts)) eras with
          | .error e => .error (e, [])
          | .ok collected =>
            ExportScript.writePhase pois tauNom alts descr
              (ExportScript.out_stem output) (ExportScript.out_ext output) collected [] := rfl
  rw [hstep] at h
  cases halts : alts.isEmpty
  case true => rw [halts, if_pos rfl] at h; exact absurd h (by simp)
  case false =>
  rw [halts, if_neg (by simp)] at h
  cases hcol : mapExcept (ExportScript.collectEra fs dir pois (tauNom :: alts)) eras with
  | error e => rw [hcol] at h; exact absurd h (by simp)
  | ok collected =>
  rw [hcol] at h
  obtain ⟨created, houts, hwp⟩ := writePhase_ok collected [] outs h
  rw [List.nil_append] at houts
  subst houts
  have hcoll := mapExcept_ok_forall2 hcol
  have hfst : List.Forall₂ (fun (y : String) p => p.1 = y) eras collected := by
    refine hcoll.imp ?_
    intro a b hab
    unfold ExportScript.collectEra at hab
    cases hcy : ExportScript.collectYear fs dir pois (tauNom :: alts) a with
    | error e2 => rw [hcy] at hab; exact absurd hab (by simp)
    | ok r => rw [hcy] at hab; simp only [Except.ok.injEq] at hab; rw [← hab]
  have hlen1 : eras.length = collected.length := hfst.length_eq
  have hlen2 : collected.length = outs.length := hwp.length_eq
  refine ⟨(hlen1.trans hlen2).symm, rfl, rfl, out_ext_lower output, ?_⟩
  intro i h1 h2
  have hic : i < collected.length := hlen1 ▸ h1
  have hera := hfst.get h1 hic
  obtain ⟨corrs, hbc, ho⟩ := hwp.get hic h2
  obtain ⟨hnames, hver⟩ := buildYearCorrections_names hbc
  rw [hera] at hbc hnames
  refine ⟨?_, ?_, ?_, ?_⟩
  · rw [ho, hera]
  · rw [ho]
  · rw [ho]
    exact hnames
  · intro c hc
    rw [ho] at hc
    exact hver c hc

/-- Witness for C6: the concrete run on `exportFsGood` over era
2022_preEE with POIs r and SF_c. -/
theorem C6_witness :
    Fixtures.goodRunOuts.length = 1 ∧
    Fixtures.goodOut.path = ExportScript.out_stem "sf_corrections_run3" ++ "_"
        ++ "2022_preEE" ++ ExportScript.out_ext "sf_corrections_run3" ∧
    Fixtures.goodOut.cset.schema_version = 2 ∧
    Fixtures.goodOut.cset.corrections.map Correction.name
        = ["HHbbww_2022_preEE_SF_bb", "HHbbww_2022_preEE_SF_cc"] := by
  have h := C6_versioned_per_era_files Fixtures.exportFsGood "dc" ["2022_preEE"]
    ["r", "SF_c"] "0p30" ["0p20", "0p25", "0p35", "0p40"] "sf_corrections_run3" "d"
    Fixtures.goodRunOuts rfl
  obtain ⟨hlen, -, -, -, hi⟩ := h
  have hlen1 : Fixtures.goodRunOuts.length = 1 := hlen
  have h0 := hi 0 (by decide) (by rw [hlen1]; decide)
  exact ⟨hlen1, h0.1, h0.2.1, h0.2.2.1⟩

/-- Claim C9: `sf_hhbbww` returns, per event, the product of the per-jet
scale factors of only the leading and subleading fat jets, with 1.0
substituted for each missing jet: zero fat jets give 1, one fat jet gives
that jet's SF, jets beyond the second never affect the result, and a jet
that is neither bb-matched nor cc-matched contributes a factor of
exactly 1. -/
theorem C9_sf_hhbbww_leading_subleading (sq : ℚ → ℚ)
    (corr_bb corr_cc : ℚ → String → ℚ) (systematic : String)
    (events : List (List ScaleFactors.FatJet))
    (hs : systematic ∈ ["nominal", "totalUp", "totalDown"]) :
    ScaleFactors.sf_hhbbww sq corr_bb corr_cc events systematic
        = .ok (events.map (ScaleFactors.eventWeight sq corr_bb corr_cc systematic)) ∧
    (∀ jets, ScaleFactors.eventWeight sq corr_bb corr_cc systematic jets
        = ((jets.take 2).map
            (ScaleFactors._hhbbww_variations sq corr_bb corr_cc systematic)).prod) ∧
    ScaleFactors.eventWeight sq corr_bb corr_cc systematic [] = 1 ∧
    (∀ j, ScaleFactors.eventWeight sq corr_bb corr_cc systematic [j]
        = ScaleFactors._hhbbww_variations sq corr_bb corr_cc systematic j) ∧
    (∀ jets, ScaleFactors.eventWeight sq corr_bb corr_cc systematic jets
        = ScaleFactors.eventWeight sq corr_bb corr_cc systematic (jets.take 2)) ∧
    (∀ j : ScaleFactors.FatJet, ¬(j.hadronFlavour = 5 ∧ 2 ≤ j.nBHadrons) →
       ¬(j.hadronFlavour = 4 ∧ 2 ≤ j.nCHadrons ∧ j.nBHadrons = 0) →
       ScaleFactors._hhbbww_variations sq corr_bb corr_cc systematic j = 1) := by
  have hc : (["nominal", "totalUp", "totalDown"].contains systematic) = true := by
    simp only [List.mem_cons, List.not_mem_nil, or_false] at hs
    rcases hs with rfl | rfl | rfl <;> rfl
  refine ⟨?_, ?_, ?_, ?_, ?_, ?_⟩
  · unfold ScaleFactors.sf_hhbbww
    rw [hc]
    rfl
  · intro jets
    rcases jets with _ | ⟨j1, _ | ⟨j2, rest⟩⟩ <;>
      simp [ScaleFactors.eventWeight]
  · simp [ScaleFactors.eventWeight]
  · intro j
    simp [ScaleFactors.eventWeight]
  · intro jets
    rcases jets with _ | ⟨j1, _ | ⟨j2, rest⟩⟩ <;>
      simp [ScaleFactors.eventWeight]
  · intro j h1 h2
    have hbb : ScaleFactors.mask_bb j = false := by
      rw [Bool.eq_false_iff]
      intro hb
      exact h1 (by simpa [ScaleFactors.mask_bb] using hb)
    have hcc : ScaleFactors.mask_cc j = false := by
      rw [Bool.eq_false_iff]
      intro hb
      exact h2 (by simpa [ScaleFactors.mask_cc, and_assoc] using hb)
    simp [ScaleFactors._hhbbww_variations, hbb, hcc]

/-- Witness for C9: the identity square root, unit corrections, one
empty event and one single-jet event, and an unmatched jet. -/
theorem C9_witness :
    ScaleFactors.sf_hhbbww (fun q => q) (fun _ _ => 1) (fun _ _ => 1)
        [[], [Fixtures.bbJet]] "nominal"
      = .ok ([[], [Fixtures.bbJet]].map
          (ScaleFactors.eventWeight (fun q => q) (fun _ _ => 1) (fun _ _ => 1) "nominal")) ∧
    ScaleFactors.eventWeight (fun q => q) (fun _ _ => 1) (fun _ _ => 1) "nominal" [] = 1 ∧
    ScaleFactors._hhbbww_variations (fun q => q) (fun _ _ => 1) (fun _ _ => 1) "nominal"
        Fixtures.lightJet = 1 := by
  have h := C9_sf_hhbbww_leading_subleading (fun q => q) (fun _ _ => 1) (fun _ _ => 1)
    "nominal" [[], [Fixtures.bbJet]] (by decide)
  exact ⟨h.1, h.2.2.1, h.2.2.2.2.2 Fixtures.lightJet (by decide) (by decide)⟩

/-- If every requested systematic is present in the dict, the category
entries of the combine script build successfully and look up to the dict
values. -/
theorem syst_entries_ok (m : List (String × ℚ)) :
    ∀ (ks : List String), (∀ s ∈ ks, (dictGet m s).isSome = true) →
      ∃ entries, mapExcept (CombineScript.syst_entry m) ks = .ok entries ∧
        ∀ s ∈ ks, (entries.find? (fun e => e.key == s)).map SystEntry.value
            = dictGet m s := by
  intro ks
  induction ks with
  | nil => exact fun _ => ⟨[], rfl, by intro s hs; cases hs⟩
  | cons k ks ih =>
    intro h
    obtain ⟨v, hv⟩ := Option.isSome_iff_exists.mp (h k (List.mem_cons_self k ks))
    obtain ⟨entries, hmap, hlook⟩ := ih (fun s hs => h s (List.mem_cons_of_mem k hs))
    have hek : CombineScript.syst_entry m k = .ok ⟨k, v⟩ := by
      unfold CombineScript.syst_entry
      rw [hv]
    refine ⟨⟨k, v⟩ :: entries, ?_, ?_⟩
    · simp only [mapExcept]
      rw [hek, hmap]
    · intro s hs
      by_cases hsk : s = k
      · subst hsk
        rw [List.find?_cons_of_pos _ (by simp)]
        rw [Option.map_some']
        exact hv.symm
      · rw [List.find?_cons_of_neg _ (by simp; exact fun h2 => hsk h2.symm)]
        rcases List.mem_cons.mp hs with rfl | hs2
        · exact absurd rfl hsk
        · exact hlook s hs2

/-- A category node of the combine script builds whenever all seven
systematics are present, and looks up to the dict values. -/
theorem category_node_ok (m : List (String × ℚ))
    (hm : ∀ s ∈ CombineScript.SYSTEMATICS, (dictGet m s).isSome = true) :
    ∃ cat, CombineScript.category_node m = .ok cat ∧
      cat.nodetype = "category" ∧ cat.input = "systematic" ∧
      ∀ s ∈ CombineScript.SYSTEMATICS, catLookup cat s = dictGet m s := by
  obtain ⟨entries, hmap, hlook⟩ := syst_entries_ok m CombineScript.SYSTEMATICS hm
  refine ⟨⟨"category", "systematic", entries, none⟩, ?_, rfl, rfl, ?_⟩
  · unfold CombineScript.category_node
    rw [hmap]
  · intro s hs
    exact hlook s hs

/-- The combine-script correction over three complete per-bin dicts. -/
theorem combine_build3 (n d : String) (m1 m2 m3 : List (String × ℚ))
    (h1 : ∀ s ∈ CombineScript.SYSTEMATICS, (dictGet m1 s).isSome = true)
    (h2 : ∀ s ∈ CombineScript.SYSTEMATICS, (dictGet m2 s).isSome = true)
    (h3 : ∀ s ∈ CombineScript.SYSTEMATICS, (dictGet m3 s).isSome = true) :
    ∃ c cat1 cat2 cat3, CombineScript.build_correction n d [m1, m2, m3] = .ok c ∧
      c.name = n ∧ c.version = 1 ∧
      c.data.edges = [300, 350, 425, 20000] ∧
      c.data.content = [cat1, cat2, cat3] ∧
      (∀ s ∈ CombineScript.SYSTEMATICS, catLookup cat1 s = dictGet m1 s) ∧
      (∀ s ∈ CombineScript.SYSTEMATICS, catLookup cat2 s = dictGet m2 s) ∧
      (∀ s ∈ CombineScript.SYSTEMATICS, catLookup cat3 s = dictGet m3 s) := by
  obtain ⟨cat1, hc1, -, -, hl1⟩ := category_node_ok m1 h1
  obtain ⟨cat2, hc2, -, -, hl2⟩ := category_node_ok m2 h2
  obtain ⟨cat3, hc3, -, -, hl3⟩ := category_node_ok m3 h3
  have hmap : mapExcept CombineScript.category_node [m1, m2, m3] = .ok [cat1, cat2, cat3] := by
    simp only [mapExcept]
    rw [hc1, hc2, hc3]
  refine ⟨{ name := n, description := d, version := 1,
            inputs := [⟨"pt", "real", "AK8 jet pT (GeV)"⟩,
                       ⟨"systematic", "string",
                        "nominal|up|down|tau21Up|tau21Down|msdUp|msdDown"⟩],
            output := ⟨"sf", "real", "scale factor"⟩,
            data := { nodetype := "binning", input := "pt",
                      edges := CombineScript.PT_BINS.map (fun b => b.2.1)
                          ++ [(CombineScript.PT_BINS.getLastD ("", 0, 0)).2.2],
                      content := [cat1, cat2, cat3], flow := "clamp" } },
    cat1, cat2, cat3, ?_, rfl, rfl, rfl, rfl, hl1, hl2, hl3⟩
  unfold CombineScript.build_correction
  rw [hmap]

/-- Claim C2: combining per-pT-bin files preserves the mapping from
(jet pT bin, systematic) to weight: per era, when each input file
contains bb and cc corrections carrying all seven systematics, the
combined corrections bin pT with edges exactly 300, 350, 425, 20000 in
input order 300to350, 350to425, 425toInf, and the category of bin i
looks every systematic up to exactly the value stored in the i-th input
file. -/
theorem C2_combine_preserves_bins (era : String) (files : String → List Correction)
    (v1 v2 v3 : List (String × List (String × ℚ)))
    (hv1 : CombineScript.load_values (files "300to350") = .ok v1)
    (hv2 : CombineScript.load_values (files "350to425") = .ok v2)
    (hv3 : CombineScript.load_values (files "425toInf") = .ok v3)
    (b1 b2 b3 c1 c2 c3 : String × List (String × ℚ))
    (hb1 : v1.find? (fun kv => strEndsWith kv.1 "_SF_bb") = some b1)
    (hc1 : v1.find? (fun kv => strEndsWith kv.1 "_SF_cc") = some c1)
    (hb2 : v2.find? (fun kv => strEndsWith kv.1 "_SF_bb") = some b2)
    (hc2 : v2.find? (fun kv => strEndsWith kv.1 "_SF_cc") = some c2)
    (hb3 : v3.find? (fun kv => strEndsWith kv.1 "_SF_bb") = some b3)
    (hc3 : v3.find? (fun kv => strEndsWith kv.1 "_SF_cc") = some c3)
    (hall : ∀ s ∈ CombineScript.SYSTEMATICS,
       ((dictGet b1.2 s).isSome = true ∧ (dictGet b2.2 s).isSome = true ∧
        (dictGet b3.2 s).isSome = true) ∧
       ((dictGet c1.2 s).isSome = true ∧ (dictGet c2.2 s).isSome = true ∧
        (dictGet c3.2 s).isSome = true)) :
    ∃ out cbb ccc cat1 cat2 cat3 dat1 dat2 dat3,
      CombineScript.combine_era era files = .ok out ∧
      out.path = "ak8_sf_msdtest_Pt-combined_" ++ era ++ ".json" ∧
      out.cset.schema_version = 2 ∧
      out.cset.corrections = [cbb, ccc] ∧
      cbb.name = "HHbbww_" ++ era ++ "_SF_bb" ∧
      ccc.name = "HHbbww_" ++ era ++ "_SF_cc" ∧
      cbb.data.edges = [300, 350, 425, 20000] ∧
      ccc.data.edges = [300, 350, 425, 20000] ∧
      cbb.data.content = [cat1, cat2, cat3] ∧
      ccc.data.content = [dat1, dat2, dat3] ∧
      (∀ s ∈ CombineScript.SYSTEMATICS,
        catLookup cat1 s = dictGet b1.2 s ∧ catLookup cat2 s = dictGet b2.2 s ∧
        catLookup cat3 s = dictGet b3.2 s ∧ catLookup dat1 s = dictGet c1.2 s ∧
        catLookup dat2 s = dictGet c2.2 s ∧ catLookup dat3 s = dictGet c3.2 s) := by
  have hlb1 : CombineScript.load_bin era files "300to350" = .ok (b1.2, c1.2) := by
    unfold CombineScript.load_bin
    rw [hv1]
    dsimp only
    rw [hb1, hc1]
  have hlb2 : CombineScript.load_bin era files "350to425" = .ok (b2.2, c2.2) := by
    unfold CombineScript.load_bin
    rw [hv2]
    dsimp only
    rw [hb2, hc2]
  have hlb3 : CombineScript.load_bin era files "425toInf" = .ok (b3.2, c3.2) := by
    unfold CombineScript.load_bin
    rw [hv3]
    dsimp only
    rw [hb3, hc3]
  have hbins : mapExcept (CombineScript.load_bin era files)
      (CombineScript.PT_BINS.map (fun b => b.1))
      = .ok [(b1.2, c1.2), (b2.2, c2.2), (b3.2, c3.2)] := by
    show mapExcept (CombineScript.load_bin era files) ["300to350", "350to425", "425toInf"]
        = .ok [(b1.2, c1.2), (b2.2, c2.2), (b3.2, c3.2)]
    simp only [mapExcept]
    rw [hlb1, hlb2, hlb3]
  obtain ⟨cbb, cat1, cat2, cat3, hbuild1, hn1, -, hedge1, hcont1, hl1, hl2, hl3⟩ :=
    combine_build3 ("HHbbww_" ++ era ++ "_SF_bb")
      ("HHbbww Run3 scale factors | combined pT bins | " ++ era ++ " | r")
      b1.2 b2.2 b3.2
      (fun s hs => ((hall s hs).1).1) (fun s hs => ((hall s hs).1).2.1)
      (fun s hs => ((hall s hs).1).2.2)
  obtain ⟨ccc, dat1, dat2, dat3, hbuild2, hn2, -, hedge2, hcont2, hm1, hm2, hm3⟩ :=
    combine_build3 ("HHbbww_" ++ era ++ "_SF_cc")
      ("HHbbww Run3 scale factors | combined pT bins | " ++ era ++ " | SF_c")
      c1.2 c2.2 c3.2
      (fun s hs => ((hall s hs).2).1) (fun s hs => ((hall s hs).2).2.1)
      (fun s hs => ((hall s hs).2).2.2)
  refine ⟨{ path := "ak8_sf_msdtest_Pt-combined_" ++ era ++ ".json",
            cset := { schema_version := 2,
                      description := "HHbbww Run3 scale factors combined pT bins (300-350, 350-425, 425-Inf) for " ++ era,
                      corrections := [cbb, ccc] } },
    cbb, ccc, cat1, cat2, cat3, dat1, dat2, dat3, ?_, rfl, rfl, rfl, hn1, hn2,
    hedge1, hedge2, hcont1, hcont2, ?_⟩
  · unfold CombineScript.combine_era
    rw [hbins]
    simp only [List.map_cons, List.map_nil]
    rw [hbuild1, hbuild2]
  · intro s hs
    exact ⟨hl1 s hs, hl2 s hs, hl3 s hs, hm1 s hs, hm2 s hs, hm3 s hs⟩

/-- Witness for C2 on the three concrete per-pT-bin input files of
`combineFiles`. -/
theorem C2_witness :
    ∃ out cbb ccc cat1 cat2 cat3 dat1 dat2 dat3,
      CombineScript.combine_era "2022_preEE" Fixtures.combineFiles = .ok out ∧
      out.path = "ak8_sf_msdtest_Pt-combined_" ++ "2022_preEE" ++ ".json" ∧
      out.cset.schema_version = 2 ∧
      out.cset.corrections = [cbb, ccc] ∧
      cbb.name = "HHbbww_" ++ "2022_preEE" ++ "_SF_bb" ∧
      ccc.name = "HHbbww_" ++ "2022_preEE" ++ "_SF_cc" ∧
      cbb.data.edges = [300, 350, 425, 20000] ∧
      ccc.data.edges = [300, 350, 425, 20000] ∧
      cbb.data.content = [cat1, cat2, cat3] ∧
      ccc.data.content = [dat1, dat2, dat3] ∧
      (∀ s ∈ CombineScript.SYSTEMATICS,
        catLookup cat1 s = dictGet (Fixtures.combineBB "300to350").2 s ∧
        catLookup cat2 s = dictGet (Fixtures.combineBB "350to425").2 s ∧
        catLookup cat3 s = dictGet (Fixtures.combineBB "425toInf").2 s ∧
        catLookup dat1 s = dictGet (Fixtures.combineCC "300to350").2 s ∧
        catLookup dat2 s = dictGet (Fixtures.combineCC "350to425").2 s ∧
        catLookup dat3 s = dictGet (Fixtures.combineCC "425toInf").2 s) :=
  C2_combine_preserves_bins "2022_preEE" Fixtures.combineFiles
    (Fixtures.combineV "300to350") (Fixtures.combineV "350to425")
    (Fixtures.combineV "425toInf") rfl rfl rfl
    (Fixtures.combineBB "300to350") (Fixtures.combineBB "350to425")
    (Fixtures.combineBB "425toInf") (Fixtures.combineCC "300to350")
    (Fixtures.combineCC "350to425") (Fixtures.combineCC "425toInf")
    rfl rfl rfl rfl rfl rfl (by decide)
